import Mathlib

/-!
Shallow embedding of the fetch-and-cache orchestration layer of the
`j-raps-analytics` repository: the two-tier cache store (`src/utils/cache.py`,
class `RedisCache`), the memoizing wrapper (`cache_decorator`), and the
multi-slice fetch fan-out of `src/data/nba_data.py`
(`RaptorsDataManager.get_team_games` / `get_player_stats`).

Modelling conventions:
* time is a natural number of seconds (`time.time()` in the source);
* JSON-serialisable Python values are `Val`; a polars `DataFrame` is the
  `Val.vdf` constructor, a plain `dict` is `Val.vdict`, any other scalar is
  `Val.vother`;
* the Redis tier stores the value that `json.loads` would give back, together
  with the absolute expiry set by `SETEX` (a key is readable strictly before
  its expiry, gone at and after it);
* shared-tier I/O failures (the `except` blocks of the source) are injected
  through an explicit `ok : Bool` argument: `ok = false` means the first
  Redis command of the operation raised and control jumped to the handler.
-/

/-- A scalar cell of a tabular value: the JSON scalars that appear in the
repository's data (strings and ints), a parsed calendar date (what
`str.strptime(pl.Date, ...)` produces), and null (what `strict=False`
parsing produces on failure). Dates are encoded as `y*10000 + m*100 + d`. -/
inductive Cell where
  | cstr (s : String)
  | cint (n : Int)
  | cdate (d : Nat)
  | cnull
deriving DecidableEq, Repr

/-- A JSON value sitting under a dict key: either a list of scalars (a column)
or a single scalar. -/
inductive Entry where
  | elist (xs : List Cell)
  | escalar (c : Cell)
deriving DecidableEq, Repr

/-- `Entry.isList` mirrors `isinstance(v, list)`. -/
def Entry.isList : Entry → Bool
  | .elist _ => true
  | .escalar _ => false

/-- A Python value handled by the cache layer: a `dict` (association list,
insertion-ordered, as Python dicts are), a polars `DataFrame` (kept as its
column mapping), or any other scalar. -/
inductive Val where
  | vdict (d : List (String × Entry))
  | vdf (cols : List (String × List Cell))
  | vother (c : Cell)
deriving DecidableEq, Repr

/-- `RedisCache.set` lines 60–61: a `DataFrame` is converted with
`value.to_dict(as_series=False)` (column name ↦ list of cells); anything else
is stored as is. -/
def Val.to_dict : Val → Val
  | .vdf cols => .vdict (cols.map fun p => (p.1, Entry.elist p.2))
  | v => v

/-- Whether `json.dumps` accepts a cell: JSON scalars (strings, ints) and
`None` serialize; a `datetime.date` — what a parsed `pl.Date` cell converts
to under `to_dict` — raises `TypeError`. -/
def Cell.jsonSerializable : Cell → Bool
  | .cdate _ => false
  | _ => true

/-- Whether `json.dumps` accepts a dict entry: every element of a list, or
the scalar itself, must serialize. -/
def Entry.jsonSerializable : Entry → Bool
  | .elist xs => xs.all Cell.jsonSerializable
  | .escalar c => c.jsonSerializable

/-- Whether `json.dumps` succeeds on a value: a dict needs every cell
serializable; a `DataFrame` object itself is not JSON-serializable (this
constructor is unreachable after `to_dict`); other scalars follow the cell
rule. -/
def Val.jsonSerializable : Val → Bool
  | .vdict d => d.all (fun p => p.2.jsonSerializable)
  | .vdf _ => false
  | .vother c => c.jsonSerializable

/-- `RedisCache.get` lines 46–48: after `json.loads`, a dict all of whose
values are lists is turned into `pl.DataFrame(data)`; any other value is
returned unchanged. -/
def parse_loaded (data : Val) : Val :=
  match data with
  | .vdict d =>
      if d.all (fun p => p.2.isList) then
        .vdf (d.map fun p => (p.1, match p.2 with | .elist xs => xs | .escalar c => [c]))
      else .vdict d
  | v => v

/-- The mutable state of the `RedisCache` singleton together with the shared
Redis tier it talks to.  `memory` is `self._memory_cache` (key ↦ (value,
absolute expiry)); `redisStore` is the backing Redis database (key ↦
(stored JSON value, absolute expiry from `SETEX`)); the three counters are
`self._cache_stats`. -/
structure CacheState where
  memory : List (String × Val × Nat)
  redisStore : List (String × Val × Nat)
  hits : Nat
  misses : Nat
  api_calls : Nat
deriving DecidableEq, Repr

/-- The state of a process that has just constructed its `RedisCache`
(`_initialize`): empty fast tier, zero counters, empty backing store. -/
def emptyCache : CacheState :=
  { memory := [], redisStore := [], hits := 0, misses := 0, api_calls := 0 }

/-- Association-list lookup, first binding wins (Python dict lookup). -/
def memLookup (m : List (String × Val × Nat)) (k : String) : Option (Val × Nat) :=
  (m.find? (fun p => p.1 == k)).map (·.2)

/-- `del d[k]` / overwrite support: drop every binding of `k`. -/
def memErase (m : List (String × Val × Nat)) (k : String) : List (String × Val × Nat) :=
  m.filter (fun p => p.1 != k)

/-- `d[k] = (v, e)`: bind `k`, replacing any previous binding. -/
def memInsert (m : List (String × Val × Nat)) (k : String) (v : Val) (e : Nat) :
    List (String × Val × Nat) :=
  (k, v, e) :: memErase m k

/-- A Redis `GET` at time `now`: the stored value while `now` is strictly
before the `SETEX` expiry, nothing afterwards. -/
def redisGet (r : List (String × Val × Nat)) (k : String) (now : Nat) : Option Val :=
  match memLookup r k with
  | some (v, e) => if now < e then some v else none
  | none => none

/-- `RedisCache.get` (cache.py lines 29–55).  Returns the value handed back to
the caller and the successor state.  The fast tier is consulted first
(strictly-unexpired entries count as hits, expired ones are deleted); then the
shared tier is read inside `try`: `ok = false` models `self.redis.get`
raising, which falls through to the miss accounting.  A shared-tier hit
rehydrates via `parse_loaded` and re-populates the fast tier with expiry
`now + 300` (the literal 5-minute secondary TTL of line 49). -/
def cacheGet (now : Nat) (ok : Bool) (key : String) (st : CacheState) :
    Option Val × CacheState :=
  match memLookup st.memory key with
  | some (value, expiry) =>
      if now < expiry then
        (some value, { st with hits := st.hits + 1 })
      else
        -- `del self._memory_cache[key]`, then fall through to Redis
        let st := { st with memory := memErase st.memory key }
        if ok then
          match redisGet st.redisStore key now with
          | some value =>
              let data := parse_loaded value
              (some data,
               { st with hits := st.hits + 1,
                         memory := memInsert st.memory key data (now + 300) })
          | none => (none, { st with misses := st.misses + 1 })
        else (none, { st with misses := st.misses + 1 })
  | none =>
      if ok then
        match redisGet st.redisStore key now with
        | some value =>
            let data := parse_loaded value
            (some data,
             { st with hits := st.hits + 1,
                       memory := memInsert st.memory key data (now + 300) })
        | none => (none, { st with misses := st.misses + 1 })
      else (none, { st with misses := st.misses + 1 })

/-- `RedisCache.set` (cache.py lines 57–71).  Inside one `try`: `DataFrame`s
are converted to dicts, `json.dumps` runs on the converted value (as an
argument of `setex`), the JSON form is written to Redis with `SETEX` expiry
`now + expire_in`, and the same converted value is put in the fast tier with
the same expiry.  `json.dumps` raises `TypeError` when the converted value
holds non-serializable cells (a parsed-date column does); the handler only
prints, so neither tier is written (line 69 is unreached).  `ok = false`
models `self.redis.setex` itself raising, with the same all-or-nothing
outcome. -/
def cacheSet (now : Nat) (ok : Bool) (key : String) (value : Val) (expire_in : Nat)
    (st : CacheState) : CacheState :=
  if ok then
    let value := value.to_dict
    if value.jsonSerializable then
      { st with
          redisStore := memInsert st.redisStore key value (now + expire_in),
          memory := memInsert st.memory key value (now + expire_in) }
    else st
  else st

/-- `RedisCache.delete` (cache.py lines 73–80): both tiers are cleared of the
key inside one `try`; on a raising `self.redis.delete` (`ok = false`) nothing
changes.  No counter is touched. -/
def cacheDelete (ok : Bool) (key : String) (st : CacheState) : CacheState :=
  if ok then
    { st with
        redisStore := memErase st.redisStore key,
        memory := memErase st.memory key }
  else st

/-- `RedisCache.track_api_call` (cache.py lines 96–98). -/
def track_api_call (st : CacheState) : CacheState :=
  { st with api_calls := st.api_calls + 1 }

/-- `RedisCache.clear` (cache.py lines 100–111): `FLUSHALL`, clear the fast
tier, zero the counters. -/
def cacheClear (ok : Bool) (st : CacheState) : CacheState :=
  if ok then
    { memory := [], redisStore := [], hits := 0, misses := 0, api_calls := 0 }
  else st

/-! ### Cache statistics (`RedisCache.get_stats`, cache.py lines 82–94)

Python computes the hit rate with float division and renders it with
`f"{hit_rate:.1f}%"`.  The model computes the exact rational percentage and
rounds it to one decimal digit; the float detour of the source only perturbs
the printed digit by strictly less than the claims' rounding tolerance. -/

/-- The exact hit-rate percentage: `hits / (hits + misses) * 100` when any
request was seen, `0` otherwise (line 85). -/
def hitRatePercent (st : CacheState) : ℚ :=
  let total := st.hits + st.misses
  if 0 < total then (st.hits : ℚ) / (total : ℚ) * 100 else 0

/-- The percentage rounded to one decimal digit, in tenths of a percent
(the value `f"{hit_rate:.1f}"` displays, times ten). -/
def hitRateTenths (st : CacheState) : ℤ :=
  round (10 * hitRatePercent st)

/-- Render a non-negative number of tenths of a percent the way
`f"{hit_rate:.1f}%"` does. -/
def fmtTenths (t : ℤ) : String :=
  let n := t.toNat
  s!"{n / 10}.{n % 10}%"

/-- The snapshot dictionary `get_stats` returns; the wall-clock ISO timestamp
of line 93 is passed in by the caller of the model. -/
structure Stats where
  cache_hits : Nat
  cache_misses : Nat
  hit_rate : String
  api_calls : Nat
  memory_cache_size : Nat
  timestamp : String
deriving DecidableEq, Repr

/-- `RedisCache.get_stats` (cache.py lines 82–94). -/
def get_stats (st : CacheState) (nowIso : String) : Stats :=
  { cache_hits := st.hits
    cache_misses := st.misses
    hit_rate := fmtTenths (hitRateTenths st)
    api_calls := st.api_calls
    memory_cache_size := st.memory.length
    timestamp := nowIso }

/-! ### The memoizing wrapper (`cache_decorator`, cache.py lines 114–145) -/

/-- What one invocation of the wrapped operation does when its body actually
runs: it either raises or returns a Python value (possibly `None`), and it
performs some number of rate-limit sleeps on the way (`_rate_limit` is called
inside the wrapped bodies in `nba_data.py`, never by the wrapper itself). -/
inductive CallResult where
  | raises
  | returns (v : Option Val)
deriving DecidableEq, Repr

/-- The wrapped operation, as the wrapper sees it: its outcome and the number
of rate-limit sleeps its body performs when invoked. -/
structure Func where
  result : CallResult
  sleeps : Nat
deriving DecidableEq, Repr

/-- Line 123: `key = f"{func.__name__}:{str(args)}:{str(kwargs)}"`, with
`args` and `kwargs` standing for their Python `str` renderings. -/
def cacheKey (fname argsStr kwargsStr : String) : String :=
  fname ++ ":" ++ argsStr ++ ":" ++ kwargsStr

/-- The `wrapper` closure of `cache_decorator` (cache.py lines 119–141).
Returns (outcome handed to the caller, successor cache state, number of
rate-limit sleeps performed during this invocation).  On a cache hit the
wrapped body never runs: no sleep, no `track_api_call`, no `set`.  On a miss
`track_api_call` runs first, then the body; a raised exception propagates
(nothing further happens); a non-`None` result is stored under the decorator's
`expire_in`, and the result is returned as produced by the body. -/
def wrapper (expire_in : Nat) (fname argsStr kwargsStr : String) (f : Func)
    (now : Nat) (ok : Bool) (st : CacheState) : CallResult × CacheState × Nat :=
  let key := cacheKey fname argsStr kwargsStr
  match cacheGet now ok key st with
  | (some result, st) => (.returns (some result), st, 0)
  | (none, st) =>
      let st := track_api_call st
      match f.result with
      | .raises => (.raises, st, f.sleeps)
      | .returns result =>
          match result with
          | some v => (.returns (some v), cacheSet now ok key v expire_in st, f.sleeps)
          | none => (.returns none, st, f.sleeps)

/-! ### Tables and the dataset assembler (`src/data/nba_data.py`)

A table is its list of rows; a row maps column names to cells (first binding
wins, as in a polars frame where names are unique).  The numeric casts of
the source (`cast(pl.Int32)`, `cast(pl.Float32)`) do not change the value of
any cell the claims touch and are modelled as leaving cells unchanged. -/

/-- One row of a polars frame. -/
abbrev Row : Type := List (String × Cell)

/-- A polars frame, as its row list. -/
abbrev Table : Type := List Row

/-- Column access with `cnull` for an absent name. -/
def getColD (r : Row) (name : String) : Cell :=
  match r.find? (fun p => p.1 == name) with
  | some p => p.2
  | none => Cell.cnull

/-- `with_columns` semantics for one column: replace the named column where it
exists, append it otherwise. -/
def setCol (r : Row) (name : String) (c : Cell) : Row :=
  if r.any (fun p => p.1 == name) then
    r.map (fun p => if p.1 == name then (p.1, c) else p)
  else r ++ [(name, c)]

/-- Month abbreviation of the `%b` directive. -/
def monthNum (m : String) : Option Nat :=
  if m = "Jan" then some 1 else if m = "Feb" then some 2
  else if m = "Mar" then some 3 else if m = "Apr" then some 4
  else if m = "May" then some 5 else if m = "Jun" then some 6
  else if m = "Jul" then some 7 else if m = "Aug" then some 8
  else if m = "Sep" then some 9 else if m = "Oct" then some 10
  else if m = "Nov" then some 11 else if m = "Dec" then some 12
  else none

/-- Split a character list at every space, keeping empty tokens (the
behaviour of `str.split(" ")` on the date strings at hand). -/
def splitOnSpace (acc : List Char) : List Char → List (List Char)
  | [] => [acc.reverse]
  | c :: cs =>
      if c = ' ' then acc.reverse :: splitOnSpace [] cs
      else splitOnSpace (c :: acc) cs

/-- Read a non-empty all-digit token as a number. -/
def natFromDigits (cs : List Char) : Option Nat :=
  if cs.isEmpty then none
  else cs.foldl
    (fun acc? c => do
      let acc ← acc?
      if c.isDigit then some (acc * 10 + (c.toNat - 48)) else none)
    (some 0)

/-- Parse a date in the upstream format `"%b %d, %Y"` (e.g. `"Nov 01, 2024"`)
into the `y*10000 + m*100 + d` encoding. -/
def parseDate (s : String) : Option Nat :=
  match (splitOnSpace [] s.data).map (fun cs => String.mk cs) with
  | [m, dComma, y] => do
      let mo ← monthNum m
      let () ← if dComma.data.getLast? = some ',' then some () else none
      let d ← natFromDigits dComma.data.dropLast
      let yn ← natFromDigits y.data
      pure (yn * 10000 + mo * 100 + d)
  | _ => none

/-- `pl.col("GAME_DATE").str.strptime(pl.Date, "%b %d, %Y", strict=False)`:
a parseable string becomes a date, an unparseable one becomes null; an
already-non-string cell is left as the source column would not be touched by
a successful cast in the data that reaches this point. -/
def strptimeCell (c : Cell) : Cell :=
  match c with
  | .cstr s => match parseDate s with
      | some d => .cdate d
      | none => .cnull
  | c => c

/-- Sort key for `sort("GAME_DATE", descending=True)`: the encoded date of a
date cell; non-date cells key as 0 (the claims only exercise parsed dates). -/
def dateKey (c : Cell) : Nat :=
  match c with
  | .cdate d => d
  | _ => 0

/-- Row order of the per-season sort: `GAME_DATE` descending. -/
def gameDateDescLE (a b : Row) : Prop :=
  dateKey (getColD b "GAME_DATE") ≤ dateKey (getColD a "GAME_DATE")

instance : DecidableRel gameDateDescLE := fun a b =>
  inferInstanceAs (Decidable (dateKey (getColD b "GAME_DATE") ≤ dateKey (getColD a "GAME_DATE")))

instance : IsTotal Row gameDateDescLE := ⟨fun x y => Nat.le_total (dateKey (getColD y "GAME_DATE")) (dateKey (getColD x "GAME_DATE"))⟩

instance : IsTrans Row gameDateDescLE :=
  ⟨fun _ _ _ h h' => Nat.le_trans h' h⟩

/-- The normalization applied to one fetched season inside
`_fetch_season_games_async` (nba_data.py lines 36–49): parse `GAME_DATE`,
numeric casts (cell values unchanged in the model), add the `SEASON` literal
column, then sort by `GAME_DATE` descending. -/
def normalizeSeason (season : String) (df : Table) : Table :=
  List.insertionSort gameDateDescLE
    (df.map fun r =>
      setCol (setCol r "GAME_DATE" (strptimeCell (getColD r "GAME_DATE")))
        "SEASON" (Cell.cstr season))

/-- `_fetch_season_games_async` (nba_data.py lines 27–52): the whole body sits
in a `try` whose handler prints and returns `None`, so a raising upstream call
(`Except.error`) yields `none` and nothing propagates; a successful upstream
frame is normalized. -/
def fetch_season_games_async (upstream : Except String Table) (season : String) :
    Option Table :=
  match upstream with
  | .error _ => none
  | .ok df => some (normalizeSeason season df)

/-- The `season is None` fan-out of `get_team_games` (nba_data.py lines
57–71): the argument lists the per-season task outcomes in the order
`as_completed` yields them; non-`None` results are collected in that order and
concatenated (`pl.concat`); with no successes the function returns `None`. -/
def get_team_games_all (tasks : List (Except String Table × String)) : Option Table :=
  let all_games := tasks.filterMap (fun p => fetch_season_games_async p.1 p.2)
  if all_games.isEmpty then none else some all_games.flatten

/-- `_fetch_player_stats_async` (nba_data.py lines 107–128): exceptions from
the upstream call are caught and yield `None`; an empty frame yields `None`
(the `if not df.is_empty()` guard); otherwise the `PLAYER_NAME` and `SEASON`
literal columns are added. -/
def fetch_player_stats_async (upstream : Except String Table)
    (player_name season : String) : Option Table :=
  match upstream with
  | .error _ => none
  | .ok df =>
      if df.isEmpty then none
      else some (df.map fun r =>
        setCol (setCol r "PLAYER_NAME" (Cell.cstr player_name))
          "SEASON" (Cell.cstr season))

/-- The column list of the `select` in `get_player_stats`
(nba_data.py lines 181–192). -/
def playerSelectCols : List String :=
  ["PLAYER_NAME", "GAME_DATE", "SEASON", "PTS", "REB", "AST", "FG_PCT",
   "STL", "BLK", "TOV"]

/-- Per-row processing of the final pipeline of `get_player_stats` (lines
166–192): parse `GAME_DATE`, numeric casts (cell values unchanged in the
model), then `select` the fixed column list in its fixed order. -/
def processPlayerRow (r : Row) : Row :=
  let r := setCol r "GAME_DATE" (strptimeCell (getColD r "GAME_DATE"))
  playerSelectCols.map (fun name => (name, getColD r name))

/-- Sort key of `sort(["SEASON", "PLAYER_NAME", "GAME_DATE"],
descending=[True, False, True])` (lines 193–194): season descending, player
name ascending, game date descending, lexicographically. -/
def playerKey (r : Row) : Lex ((OrderDual String) × Lex (String × OrderDual Nat)) :=
  toLex (OrderDual.toDual (match getColD r "SEASON" with
         | .cstr s => s
         | _ => ""),
    toLex ((match getColD r "PLAYER_NAME" with
            | .cstr s => s
            | _ => ""),
      OrderDual.toDual (dateKey (getColD r "GAME_DATE"))))

/-- Row order of the `get_player_stats` sort. -/
def playerLE (a b : Row) : Prop := playerKey a ≤ playerKey b

instance : DecidableRel playerLE := fun a b =>
  inferInstanceAs (Decidable (playerKey a ≤ playerKey b))

/-- Structural decidable equality for the sort-key type (the `Lex` and
`OrderDual` synonyms unfold to a plain product), so that key distinctness on
concrete rows evaluates. -/
instance : DecidableEq (Lex ((OrderDual String) × Lex (String × OrderDual Nat))) :=
  inferInstanceAs (DecidableEq (String × String × Nat))

instance : IsTotal Row playerLE := ⟨fun a b => le_total (playerKey a) (playerKey b)⟩

instance : IsTrans Row playerLE := ⟨fun _ _ _ h h' => le_trans h h'⟩

/-- The assembly step of `get_player_stats` after the fan-out (nba_data.py
lines 162–196): `None` with no collected slice, otherwise concatenation,
per-row processing and the three-key sort. -/
def assemblePlayerStats (all_stats : List Table) : Option Table :=
  if all_stats.isEmpty then none
  else some (List.insertionSort playerLE ((all_stats.flatten).map processPlayerRow))

/-- The fan-out of `get_player_stats` (nba_data.py lines 141–196): the
argument lists the per-(player, season) task outcomes in completion order
(`as_completed` within each season, seasons in sequence). -/
def get_player_stats_multi
    (tasks : List (Except String Table × String × String)) : Option Table :=
  assemblePlayerStats
    (tasks.filterMap (fun p => fetch_player_stats_async p.1 p.2.1 p.2.2))

/-- The row content of a tabular value, independent of whether it travels as
a polars frame or as its `to_dict` column mapping: the ordered association of
column names to column cell lists.  Non-tabular values have no rows. -/
def tableRows : Val → Option (List (String × Entry))
  | .vdict d => some d
  | .vdf cols => some (cols.map fun p => (p.1, Entry.elist p.2))
  | .vother _ => none

/-! ## Claims -/

/-! ### Helper lemmas -/

theorem memLookup_insert (m : List (String × Val × Nat)) (k : String) (v : Val) (e : Nat) :
    memLookup (memInsert m k v e) k = some (v, e) := by
  simp [memLookup, memInsert]

theorem redisGet_some_elim {r : List (String × Val × Nat)} {k : String} {now : Nat} {v : Val}
    (h : redisGet r k now = some v) :
    ∃ e, memLookup r k = some (v, e) ∧ now < e := by
  unfold redisGet at h
  cases hm : memLookup r k with
  | none => rw [hm] at h; cases h
  | some p =>
      obtain ⟨w, e⟩ := p
      rw [hm] at h
      change (if now < e then some w else none) = some v at h
      by_cases hlt : now < e
      · rw [if_pos hlt] at h
        injection h with h
        subst h
        exact ⟨e, rfl, hlt⟩
      · rw [if_neg hlt] at h; cases h

theorem tableRows_to_dict (v : Val) : tableRows v.to_dict = tableRows v := by
  cases v <;> simp [Val.to_dict, tableRows]

/-- Two sorted permutations of each other whose sort keys are pairwise
distinct are equal: uniqueness of the sorted order used to settle
completion-order independence. -/
theorem sorted_perm_eq_of_nodup_keys {α K : Type _} [LinearOrder K] (key : α → K) :
    ∀ {l₁ l₂ : List α}, l₁.Perm l₂ →
      l₁.Sorted (fun a b => key a ≤ key b) → l₂.Sorted (fun a b => key a ≤ key b) →
      (l₁.map key).Nodup → l₁ = l₂ := by
  intro l₁
  induction l₁ with
  | nil =>
      intro l₂ hp _ _ _
      exact hp.nil_eq
  | cons a t ih =>
      intro l₂ hp hs₁ hs₂ hnd
      cases l₂ with
      | nil => exact absurd hp.symm.nil_eq (by simp)
      | cons b t₂ =>
          have hab : a = b := by
            have ha : a ∈ b :: t₂ := hp.subset (List.mem_cons_self a t)
            have hb : b ∈ a :: t := hp.symm.subset (List.mem_cons_self b t₂)
            rcases List.mem_cons.mp hb with hba | hbt
            · exact hba.symm
            · rcases List.mem_cons.mp ha with hab' | hat'
              · exact hab'
              · have h1 : key a ≤ key b := List.rel_of_sorted_cons hs₁ b hbt
                have h2 : key b ≤ key a := List.rel_of_sorted_cons hs₂ a hat'
                have hk : key a = key b := le_antisymm h1 h2
                have hnd' : key a ∉ List.map key t ∧ (List.map key t).Nodup := by
                  rw [List.map_cons, List.nodup_cons] at hnd; exact hnd
                have hmem : key a ∈ t.map key := hk ▸ List.mem_map_of_mem key hbt
                exact absurd hmem hnd'.1
          subst hab
          have hnd' : key a ∉ List.map key t ∧ (List.map key t).Nodup := by
            rw [List.map_cons, List.nodup_cons] at hnd; exact hnd
          have htl : t = t₂ :=
            ih hp.cons_inv hs₁.of_cons hs₂.of_cons hnd'.2
          rw [htl]

/-- C10: every call to `get` increments exactly one of the `hits` and `misses`
counters, by exactly one, and leaves `api_calls` unchanged; `set` and `delete`
change no counter; `api_calls` increases only through `track_api_call`, by one
per call (and `track_api_call` touches no other counter). -/
theorem counter_accounting :
    (∀ now ok key st,
      (((cacheGet now ok key st).2.hits = st.hits + 1 ∧
        (cacheGet now ok key st).2.misses = st.misses) ∨
       ((cacheGet now ok key st).2.misses = st.misses + 1 ∧
        (cacheGet now ok key st).2.hits = st.hits)) ∧
      (cacheGet now ok key st).2.api_calls = st.api_calls) ∧
    (∀ now ok key v ttl st,
      (cacheSet now ok key v ttl st).hits = st.hits ∧
      (cacheSet now ok key v ttl st).misses = st.misses ∧
      (cacheSet now ok key v ttl st).api_calls = st.api_calls) ∧
    (∀ ok key st,
      (cacheDelete ok key st).hits = st.hits ∧
      (cacheDelete ok key st).misses = st.misses ∧
      (cacheDelete ok key st).api_calls = st.api_calls) ∧
    (∀ st,
      (track_api_call st).api_calls = st.api_calls + 1 ∧
      (track_api_call st).hits = st.hits ∧
      (track_api_call st).misses = st.misses) := by
  refine ⟨?_, ?_, ?_, ?_⟩
  · intro now ok key st
    simp only [cacheGet]
    split
    · split
      · simp
      · split
        · split
          · simp
          · simp
        · simp
    · split
      · split
        · simp
        · simp
      · simp
  · intro now ok key v ttl st
    simp only [cacheSet]
    split
    · split <;> simp
    · simp
  · intro ok key st
    simp only [cacheDelete]
    split <;> simp
  · intro st
    simp [track_api_call]

/-! ### C9 -/

/-- C9: every shared-tier I/O failure is swallowed at the cache store
boundary: when the fast tier cannot serve the key (absent or expired), a
failing shared-tier read during `get` is treated as a miss — the miss counter
increments, `get` returns nothing, no other counter or tier changes — and a
failing shared-tier write during `set` is dropped without failing the caller,
leaving the state untouched. -/
theorem shared_tier_failures_swallowed :
    (∀ now key st,
      (∀ v e, memLookup st.memory key = some (v, e) → e ≤ now) →
      (cacheGet now false key st).1 = none ∧
      (cacheGet now false key st).2.misses = st.misses + 1 ∧
      (cacheGet now false key st).2.hits = st.hits ∧
      (cacheGet now false key st).2.api_calls = st.api_calls ∧
      (cacheGet now false key st).2.redisStore = st.redisStore) ∧
    (∀ now key v ttl st, cacheSet now false key v ttl st = st) := by
  constructor
  · intro now key st h
    simp only [cacheGet]
    cases hm : memLookup st.memory key with
    | none => simp
    | some p =>
        obtain ⟨v, e⟩ := p
        have : ¬ now < e := Nat.not_lt.mpr (h v e hm)
        simp [this]
  · intro now key v ttl st
    rfl

/-- Witness for C9 at a concrete input: the fast tier is empty, the shared
tier holds a live entry, yet a failing shared-tier read misses; a failing
write leaves the empty store untouched. -/
theorem shared_tier_failures_swallowed_witness :
    (cacheGet 0 false "k"
      ⟨[], [("k", Val.vother (Cell.cstr "x"), 100)], 0, 0, 0⟩).1 = none ∧
    cacheSet 5 false "q" (Val.vother (Cell.cint 3)) 60 emptyCache = emptyCache :=
  ⟨(shared_tier_failures_swallowed.1 0 "k"
      ⟨[], [("k", Val.vother (Cell.cstr "x"), 100)], 0, 0, 0⟩
      (by intro v e hv; simp [memLookup] at hv)).1,
   shared_tier_failures_swallowed.2 5 "q" (Val.vother (Cell.cint 3)) 60 emptyCache⟩

/-! ### C5 -/

/-- C5: at the failing input — the decorator wraps bound methods, so `args`
begins with `self`, and `str(args)` renders it with the default
`object.__repr__`, which embeds the instance's memory address.  Two
orchestrator instances (or two runs) therefore render the same logical query
differently, the keys differ, and the second instance's invocation misses the
entry the first one cached and re-calls upstream (`api_calls` reaches 2). -/
theorem cache_key_embeds_instance_repr :
    decide
      (cacheKey "get_team_games"
          "(<RaptorsDataManager object at 0x7f3a90>, 2024-25)" "" =
        cacheKey "get_team_games"
          "(<RaptorsDataManager object at 0x7f5b10>, 2024-25)" "") = false ∧
    (wrapper 3600 "get_team_games"
      "(<RaptorsDataManager object at 0x7f3a90>, 2024-25)" ""
      ⟨.returns (some (Val.vother (Cell.cint 1))), 1⟩ 0 true
      emptyCache).2.1.api_calls = 1 ∧
    (wrapper 3600 "get_team_games"
      "(<RaptorsDataManager object at 0x7f5b10>, 2024-25)" ""
      ⟨.returns (some (Val.vother (Cell.cint 1))), 1⟩ 10 true
      (wrapper 3600 "get_team_games"
        "(<RaptorsDataManager object at 0x7f3a90>, 2024-25)" ""
        ⟨.returns (some (Val.vother (Cell.cint 1))), 1⟩ 0 true
        emptyCache).2.1).2.1.api_calls = 2 := by
  refine ⟨rfl, rfl, rfl⟩

/-! ### C8 -/

/-- C8: after `h` hits and `m` misses with no intervening clear, the reported
hit rate is `h / (h + m)` up to the one-decimal percentage rounding of the
`"{:.1f}%"` format (tolerance 1/2000 of the fraction, i.e. 0.05 percentage
points), it is 0 (rendered `"0.0%"`) when `h + m = 0`, and `get_stats`
delivers it as the formatted percentage string. -/
theorem hit_rate_reporting (st : CacheState) (ts : String) :
    (st.hits + st.misses = 0 →
      hitRatePercent st = 0 ∧ (get_stats st ts).hit_rate = "0.0%") ∧
    (0 < st.hits + st.misses →
      |(hitRateTenths st : ℚ) / 1000 -
        (st.hits : ℚ) / ((st.hits : ℚ) + (st.misses : ℚ))| ≤ 1 / 2000) ∧
    (get_stats st ts).hit_rate = fmtTenths (hitRateTenths st) := by
  refine ⟨?_, ?_, rfl⟩
  · intro h0
    have h1 : st.hits = 0 := by omega
    have h2 : st.misses = 0 := by omega
    constructor
    · simp [hitRatePercent, h1, h2]
    · simp [get_stats, fmtTenths, hitRateTenths, hitRatePercent, h1, h2]
      rfl
  · intro hpos
    have hcast : (0 : ℚ) < (st.hits : ℚ) + (st.misses : ℚ) := by
      have : ((st.hits + st.misses : ℕ) : ℚ) > 0 := by exact_mod_cast hpos
      push_cast at this
      exact this
    set r : ℚ := (st.hits : ℚ) / ((st.hits : ℚ) + (st.misses : ℚ)) with hr
    have hpercent : hitRatePercent st = r * 100 := by
      simp only [hitRatePercent, hpos, if_pos, hr]
      push_cast
      ring
    have h10 : 10 * hitRatePercent st = 1000 * r := by rw [hpercent]; ring
    have hform : ((round (1000 * r) : ℤ) : ℚ) / 1000 - r =
        (((round (1000 * r) : ℤ) : ℚ) - 1000 * r) / 1000 := by ring
    rw [hitRateTenths, h10, hform, abs_div]
    rw [show |(1000 : ℚ)| = 1000 by norm_num,
        show (1 : ℚ) / 2000 = (1 / 2) / 1000 by norm_num]
    refine (div_le_div_iff_of_pos_right (by norm_num)).mpr ?_
    rw [abs_sub_comm]
    exact abs_sub_round (1000 * r)

/-- Witness for C8 at one hit and one miss: the reported rate is 50.0%,
within tolerance of 1/2. -/
theorem hit_rate_reporting_witness :
    0 < 1 + 1 ∧
    |(hitRateTenths ⟨[], [], 1, 1, 0⟩ : ℚ) / 1000 -
      ((1 : ℕ) : ℚ) / (((1 : ℕ) : ℚ) + ((1 : ℕ) : ℚ))| ≤ 1 / 2000 :=
  ⟨by decide, (hit_rate_reporting ⟨[], [], 1, 1, 0⟩ "t").2.1 (by decide)⟩

/-! ### C2 -/

/-- C2 counterexample: storing a DataFrame and reading it back immediately
returns the `to_dict` column mapping served by the fast tier, not a value
equal to the stored frame — the rehydration to a frame only happens on the
shared-tier read path. -/
theorem set_get_dataframe_counterexample :
    (cacheGet 0 true "team_games:2024-25"
      (cacheSet 0 true "team_games:2024-25"
        (Val.vdf [("GAME_DATE", [Cell.cstr "2024-11-01"]), ("PTS", [Cell.cint 110])])
        3600 emptyCache)).1 =
      some (Val.vdict [("GAME_DATE", Entry.elist [Cell.cstr "2024-11-01"]),
                       ("PTS", Entry.elist [Cell.cint 110])]) ∧
    decide (Val.vdict [("GAME_DATE", Entry.elist [Cell.cstr "2024-11-01"]),
               ("PTS", Entry.elist [Cell.cint 110])] =
      Val.vdf [("GAME_DATE", [Cell.cstr "2024-11-01"]), ("PTS", [Cell.cint 110])]) = false := by
  constructor
  · rfl
  · rfl

/-- C2 amended: when the dict form `v.to_dict` is JSON-serializable (no
date-valued cells), `set(k, v, ttl)` followed immediately by `get(k)`
(healthy shared tier, any `ttl > 0`) returns `v.to_dict` — the column-mapping
form of `v`, equal to `v` itself whenever `v` is not a DataFrame, and
carrying exactly the rows of `v`; the DataFrame form is only produced when a
get is served from the shared tier.  When `v.to_dict` holds a
non-serializable cell (a parsed-date column), the swallowed `json.dumps`
`TypeError` makes `set` store nothing at all — the state is unchanged, so
the immediate get finds whatever was there before, not `v`. -/
theorem set_then_get (k : String) (v : Val) (ttl : Nat) (now : Nat) (st : CacheState)
    (h : 0 < ttl) :
    (v.to_dict.jsonSerializable = true →
      (cacheGet now true k (cacheSet now true k v ttl st)).1 = some v.to_dict) ∧
    (v.to_dict.jsonSerializable = false →
      cacheSet now true k v ttl st = st) ∧
    tableRows v.to_dict = tableRows v ∧
    (∀ d, v = .vdict d → v.to_dict = v) ∧
    (∀ c, v = .vother c → v.to_dict = v) := by
  refine ⟨?_, ?_, tableRows_to_dict v, ?_, ?_⟩
  · intro hs
    have hset : cacheSet now true k v ttl st =
        { st with
            redisStore := memInsert st.redisStore k v.to_dict (now + ttl),
            memory := memInsert st.memory k v.to_dict (now + ttl) } := by
      simp [cacheSet, hs]
    rw [hset]
    simp only [cacheGet, memLookup_insert]
    have hlt : now < now + ttl := Nat.lt_add_of_pos_right h
    simp [hlt]
  · intro hs
    simp [cacheSet, hs]
  · rintro d rfl; rfl
  · rintro c rfl; rfl

/-- Witness for C2's amended theorem: the spec scenario's string-dated dict
is serializable and comes back equal to itself on the immediate get, while a
frame with a parsed date column is silently not stored. -/
theorem set_then_get_witness :
    0 < 3600 ∧
    (cacheGet 0 true "team_games:2024-25"
      (cacheSet 0 true "team_games:2024-25"
        (Val.vdict [("GAME_DATE", Entry.elist [Cell.cstr "2024-11-01"]),
                    ("PTS", Entry.elist [Cell.cint 110])])
        3600 emptyCache)).1 =
      some (Val.vdict [("GAME_DATE", Entry.elist [Cell.cstr "2024-11-01"]),
                       ("PTS", Entry.elist [Cell.cint 110])]).to_dict ∧
    cacheSet 0 true "team_games:2024-25"
      (Val.vdf [("GAME_DATE", [Cell.cdate 20241101]), ("PTS", [Cell.cint 110])])
      3600 emptyCache = emptyCache :=
  ⟨by decide,
   (set_then_get "team_games:2024-25"
      (Val.vdict [("GAME_DATE", Entry.elist [Cell.cstr "2024-11-01"]),
                  ("PTS", Entry.elist [Cell.cint 110])])
      3600 0 emptyCache (by decide)).1 (by rfl),
   (set_then_get "team_games:2024-25"
      (Val.vdf [("GAME_DATE", [Cell.cdate 20241101]), ("PTS", [Cell.cint 110])])
      3600 0 emptyCache (by decide)).2.1 (by rfl)⟩

/-! ### C6 -/

/-- C6 counterexample: a wrapped operation that returns an *empty* table (a
frame with a `PTS` column and zero rows) has its result cached all the same —
the guard of the wrapper is `result is not None`, not non-emptiness. -/
theorem empty_result_cached_counterexample :
    (wrapper 3600 "f" "a" "b" ⟨.returns (some (Val.vdf [("PTS", [])])), 1⟩
        0 true emptyCache).1 =
      .returns (some (Val.vdf [("PTS", [])])) ∧
    memLookup
      ((wrapper 3600 "f" "a" "b" ⟨.returns (some (Val.vdf [("PTS", [])])), 1⟩
          0 true emptyCache).2.1).memory (cacheKey "f" "a" "b") =
      some (Val.vdict [("PTS", Entry.elist [])], 0 + 3600) := by
  constructor
  · rfl
  · rfl

/-- C6 amended: after a cache miss, a raising operation propagates its
exception uncached (the state changes only by the lookup's miss counter and
the api-call counter); a `None` result is not stored; any other result —
empty tables included — is handed to the store under the operation's fixed
TTL and returned unchanged, and it is actually written to both tiers exactly
when its dict form is JSON-serializable: a result carrying non-serializable
cells (a parsed-date column) is silently not stored, the swallowed
`json.dumps` `TypeError` leaving the state as the lookup left it. -/
theorem wrapper_caching_policy
    (expire_in : Nat) (fname args kwargs : String) (f : Func) (now : Nat) (ok : Bool)
    (st : CacheState)
    (hmiss : (cacheGet now ok (cacheKey fname args kwargs) st).1 = none) :
    (f.result = .raises →
      wrapper expire_in fname args kwargs f now ok st =
        (.raises, track_api_call (cacheGet now ok (cacheKey fname args kwargs) st).2,
         f.sleeps)) ∧
    (f.result = .returns none →
      wrapper expire_in fname args kwargs f now ok st =
        (.returns none,
         track_api_call (cacheGet now ok (cacheKey fname args kwargs) st).2,
         f.sleeps)) ∧
    (∀ v, f.result = .returns (some v) →
      (wrapper expire_in fname args kwargs f now ok st).1 = .returns (some v) ∧
      (wrapper expire_in fname args kwargs f now ok st).2.2 = f.sleeps ∧
      (wrapper expire_in fname args kwargs f now ok st).2.1 =
        cacheSet now ok (cacheKey fname args kwargs) v expire_in
          (track_api_call (cacheGet now ok (cacheKey fname args kwargs) st).2) ∧
      (v.to_dict.jsonSerializable = true → ok = true →
        memLookup (wrapper expire_in fname args kwargs f now ok st).2.1.memory
            (cacheKey fname args kwargs) = some (v.to_dict, now + expire_in) ∧
        memLookup (wrapper expire_in fname args kwargs f now ok st).2.1.redisStore
            (cacheKey fname args kwargs) = some (v.to_dict, now + expire_in)) ∧
      (v.to_dict.jsonSerializable = false →
        (wrapper expire_in fname args kwargs f now ok st).2.1 =
          track_api_call (cacheGet now ok (cacheKey fname args kwargs) st).2)) := by
  obtain ⟨st2, hc⟩ : ∃ st2, cacheGet now ok (cacheKey fname args kwargs) st = (none, st2) :=
    ⟨(cacheGet now ok (cacheKey fname args kwargs) st).2, by rw [← hmiss]⟩
  refine ⟨?_, ?_, ?_⟩
  · intro hf
    simp [wrapper, hc, hf]
  · intro hf
    simp [wrapper, hc, hf]
  · intro v hf
    have hw : wrapper expire_in fname args kwargs f now ok st =
        (.returns (some v),
         cacheSet now ok (cacheKey fname args kwargs) v expire_in (track_api_call st2),
         f.sleeps) := by
      simp [wrapper, hc, hf]
    refine ⟨by rw [hw], by rw [hw], by rw [hw, hc], ?_, ?_⟩
    · intro hs hok
      subst hok
      rw [hw]
      constructor
      · simp [cacheSet, hs, memLookup_insert]
      · simp [cacheSet, hs, memLookup_insert]
    · intro hs
      rw [hw, hc]
      simp [cacheSet, hs]

/-- Witness for C6's amended theorem: on a concrete miss, a non-`None`
serializable scalar result is written to both tiers under the decorator's
TTL, while a non-`None` date-bearing frame leaves the state exactly as the
lookup left it. -/
theorem wrapper_caching_policy_witness :
    (cacheGet 0 true (cacheKey "f" "a" "b") emptyCache).1 = none ∧
    memLookup
      (wrapper 3600 "f" "a" "b" ⟨.returns (some (Val.vother (Cell.cint 7))), 2⟩
        0 true emptyCache).2.1.memory (cacheKey "f" "a" "b") =
      some ((Val.vother (Cell.cint 7)).to_dict, 0 + 3600) ∧
    (wrapper 3600 "f" "a" "b"
      ⟨.returns (some (Val.vdf [("GAME_DATE", [Cell.cdate 20241101])])), 2⟩
      0 true emptyCache).2.1 =
      track_api_call (cacheGet 0 true (cacheKey "f" "a" "b") emptyCache).2 :=
  ⟨by decide,
   ((wrapper_caching_policy 3600 "f" "a" "b"
      ⟨.returns (some (Val.vother (Cell.cint 7))), 2⟩ 0 true emptyCache
      (by decide)).2.2 (Val.vother (Cell.cint 7)) rfl).2.2.2.1 (by rfl) rfl |>.1,
   ((wrapper_caching_policy 3600 "f" "a" "b"
      ⟨.returns (some (Val.vdf [("GAME_DATE", [Cell.cdate 20241101])])), 2⟩ 0 true
      emptyCache
      (by decide)).2.2 (Val.vdf [("GAME_DATE", [Cell.cdate 20241101])]) rfl).2.2.2.2
      (by rfl)⟩

/-! ### C1 -/

/-- C1 counterexample: a process whose fast tier is empty reads, at time 50, a
key whose shared-tier entry was written with expiry 100.  The rehydrated
fast-tier copy gets expiry `50 + 300 = 350`, which is *not* bounded below the
entry's original TTL, and a `get` at time 200 — at or past the original
`expires_at` of 100 — still returns the value from the fast tier. -/
theorem fast_tier_outlives_expiry_counterexample :
    memLookup
      (cacheGet 50 true "k"
        ⟨[], [("k", Val.vother (Cell.cstr "v"), 100)], 0, 0, 0⟩).2.memory "k" =
      some (Val.vother (Cell.cstr "v"), 50 + 300) ∧
    (100 : Nat) < 50 + 300 ∧
    (100 : Nat) ≤ 200 ∧
    (cacheGet 200 true "k"
      (cacheGet 50 true "k"
        ⟨[], [("k", Val.vother (Cell.cstr "v"), 100)], 0, 0, 0⟩).2).1 =
      some (Val.vother (Cell.cstr "v")) := by
  refine ⟨rfl, by decide, by decide, rfl⟩

/-- C1 amended: a value returned by `get` is always backed by an entry of one
of the two tiers that is strictly unexpired *by that tier's own clock* at the
time of the call (the fast tier by its in-process expiry, the shared tier by
its `SETEX` expiry, the served value being its rehydration); but the
fast-tier copy written on a shared-tier hit carries a flat 300-second TTL
independent of the entry's original or remaining TTL, so the fast tier can
serve a value past the original write's freshness bound (by up to 5
minutes). -/
theorem get_freshness_backing :
    (∀ now ok key st v, (cacheGet now ok key st).1 = some v →
      (∃ e, memLookup st.memory key = some (v, e) ∧ now < e) ∨
      (∃ w e, memLookup st.redisStore key = some (w, e) ∧ now < e ∧
        v = parse_loaded w)) ∧
    (∀ now key st v, memLookup st.memory key = none →
      (cacheGet now true key st).1 = some v →
      memLookup (cacheGet now true key st).2.memory key = some (v, now + 300)) := by
  constructor
  · intro now ok key st v h
    cases hm : memLookup st.memory key with
    | some p =>
        obtain ⟨w, e⟩ := p
        by_cases hlt : now < e
        · have h1 : (cacheGet now ok key st).1 = some w := by
            simp [cacheGet, hm, hlt]
          rw [h1] at h
          injection h with h
          exact Or.inl ⟨e, by rw [h], hlt⟩
        · cases hok : ok with
          | false =>
              have h1 : (cacheGet now ok key st).1 = none := by
                simp [cacheGet, hm, hlt, hok]
              rw [h1] at h; cases h
          | true =>
              cases hr : redisGet st.redisStore key now with
              | none =>
                  have h1 : (cacheGet now ok key st).1 = none := by
                    simp [cacheGet, hm, hlt, hok, hr]
                  rw [h1] at h; cases h
              | some w2 =>
                  have h1 : (cacheGet now ok key st).1 = some (parse_loaded w2) := by
                    simp [cacheGet, hm, hlt, hok, hr]
                  rw [h1] at h
                  injection h with h
                  obtain ⟨e2, hm2, hlt2⟩ := redisGet_some_elim hr
                  exact Or.inr ⟨w2, e2, hm2, hlt2, h.symm⟩
    | none =>
        cases hok : ok with
        | false =>
            have h1 : (cacheGet now ok key st).1 = none := by
              simp [cacheGet, hm, hok]
            rw [h1] at h; cases h
        | true =>
            cases hr : redisGet st.redisStore key now with
            | none =>
                have h1 : (cacheGet now ok key st).1 = none := by
                  simp [cacheGet, hm, hok, hr]
                rw [h1] at h; cases h
            | some w2 =>
                have h1 : (cacheGet now ok key st).1 = some (parse_loaded w2) := by
                  simp [cacheGet, hm, hok, hr]
                rw [h1] at h
                injection h with h
                obtain ⟨e2, hm2, hlt2⟩ := redisGet_some_elim hr
                exact Or.inr ⟨w2, e2, hm2, hlt2, h.symm⟩
  · intro now key st v hmem h
    cases hr : redisGet st.redisStore key now with
    | none =>
        have h1 : (cacheGet now true key st).1 = none := by
          simp [cacheGet, hmem, hr]
        rw [h1] at h; cases h
    | some w =>
        have h1 : cacheGet now true key st =
            (some (parse_loaded w),
             { st with hits := st.hits + 1,
                       memory := memInsert st.memory key (parse_loaded w) (now + 300) }) := by
          simp [cacheGet, hmem, hr]
        have hv : parse_loaded w = v := by
          rw [h1] at h
          injection h
        rw [h1]
        simpa [memLookup_insert] using congrArg (fun x => some (x, now + 300)) hv

/-- Witness for C1's amended theorem: a fast-tier-served value is backed by
its live fast-tier entry, and a shared-tier hit at time 50 re-populates the
fast tier with expiry exactly `50 + 300`. -/
theorem get_freshness_backing_witness :
    ((∃ e, memLookup [("k", Val.vother (Cell.cstr "v"), 10)] "k" =
        some (Val.vother (Cell.cstr "v"), e) ∧ 5 < e) ∨
     (∃ w e, memLookup ([] : List (String × Val × Nat)) "k" = some (w, e) ∧ 5 < e ∧
        Val.vother (Cell.cstr "v") = parse_loaded w)) ∧
    memLookup
      (cacheGet 50 true "k"
        ⟨[], [("k", Val.vother (Cell.cstr "v"), 100)], 0, 0, 0⟩).2.memory "k" =
      some (Val.vother (Cell.cstr "v"), 50 + 300) :=
  ⟨get_freshness_backing.1 5 true "k"
      ⟨[("k", Val.vother (Cell.cstr "v"), 10)], [], 0, 0, 0⟩
      (Val.vother (Cell.cstr "v")) (by decide),
   get_freshness_backing.2 50 "k"
      ⟨[], [("k", Val.vother (Cell.cstr "v"), 100)], 0, 0, 0⟩
      (Val.vother (Cell.cstr "v")) (by decide) (by decide)⟩

/-! ### C3 -/

/-- C3: at the failing input — a wrapped operation whose result carries a
parsed date column, as the `get_team_games` / `get_player_stats` frames (the
spec's player-games scenario) do — the first invocation's store is silently
dropped: `json.dumps` raises `TypeError` on the date cells inside `set` and
the handler swallows it, so nothing is cached.  A second identical invocation
within the TTL therefore misses again: it re-runs the body (the rate-limit
sleep happens again) and `api_calls` reaches 2 instead of staying at 1. -/
theorem memoization_fails_on_date_frames :
    (wrapper 3600 "fetch_player_games" "(123, 2024-25)" ""
      ⟨.returns (some (Val.vdf [("GAME_DATE", [Cell.cdate 20241101]),
        ("PTS", [Cell.cint 25])])), 1⟩ 0 true emptyCache).2.1.api_calls = 1 ∧
    memLookup
      (wrapper 3600 "fetch_player_games" "(123, 2024-25)" ""
        ⟨.returns (some (Val.vdf [("GAME_DATE", [Cell.cdate 20241101]),
          ("PTS", [Cell.cint 25])])), 1⟩ 0 true emptyCache).2.1.memory
      (cacheKey "fetch_player_games" "(123, 2024-25)" "") = none ∧
    (wrapper 3600 "fetch_player_games" "(123, 2024-25)" ""
      ⟨.returns (some (Val.vdf [("GAME_DATE", [Cell.cdate 20241101]),
        ("PTS", [Cell.cint 25])])), 1⟩ 10 true
      (wrapper 3600 "fetch_player_games" "(123, 2024-25)" ""
        ⟨.returns (some (Val.vdf [("GAME_DATE", [Cell.cdate 20241101]),
          ("PTS", [Cell.cint 25])])), 1⟩ 0 true
        emptyCache).2.1).2.1.api_calls = 2 ∧
    (wrapper 3600 "fetch_player_games" "(123, 2024-25)" ""
      ⟨.returns (some (Val.vdf [("GAME_DATE", [Cell.cdate 20241101]),
        ("PTS", [Cell.cint 25])])), 1⟩ 10 true
      (wrapper 3600 "fetch_player_games" "(123, 2024-25)" ""
        ⟨.returns (some (Val.vdf [("GAME_DATE", [Cell.cdate 20241101]),
          ("PTS", [Cell.cint 25])])), 1⟩ 0 true
        emptyCache).2.1).2.2 = 1 := by
  refine ⟨rfl, rfl, rfl, rfl⟩

/-! ### C4 -/

/-- C4: fan-out resilience.  For the all-seasons team-games fetch, the
combined dataset is exactly the concatenation of the rows produced by the
succeeding tasks (a raising task is caught inside the task and contributes no
rows), and the overall result is `None` — "no data", not an error — precisely
when every task failed.  For the player-stats fan-out, the result is likewise
`None` exactly when every (player, season) task yielded nothing, and any
produced table consists, up to the final re-sort, of exactly the succeeding
tasks' processed rows. -/
theorem fanout_resilience :
    (∀ tasks : List (Except String Table × String),
      (get_team_games_all tasks).getD [] =
        (tasks.filterMap (fun p => fetch_season_games_async p.1 p.2)).flatten ∧
      (get_team_games_all tasks = none ↔
        ∀ p ∈ tasks, fetch_season_games_async p.1 p.2 = none)) ∧
    (∀ tasks : List (Except String Table × String × String),
      (get_player_stats_multi tasks = none ↔
        ∀ p ∈ tasks, fetch_player_stats_async p.1 p.2.1 p.2.2 = none) ∧
      (∀ t, get_player_stats_multi tasks = some t →
        t.Perm (((tasks.filterMap fun p =>
          fetch_player_stats_async p.1 p.2.1 p.2.2).flatten).map processPlayerRow))) := by
  constructor
  · intro tasks
    constructor
    · simp only [get_team_games_all]
      cases hL : tasks.filterMap (fun p => fetch_season_games_async p.1 p.2) with
      | nil => simp
      | cons a l => simp
    · simp only [get_team_games_all]
      rw [← List.filterMap_eq_nil_iff]
      cases hL : tasks.filterMap (fun p => fetch_season_games_async p.1 p.2) with
      | nil => simp
      | cons a l => simp
  · intro tasks
    constructor
    · simp only [get_player_stats_multi, assemblePlayerStats]
      rw [← List.filterMap_eq_nil_iff]
      cases hL : tasks.filterMap
          (fun p => fetch_player_stats_async p.1 p.2.1 p.2.2) with
      | nil => simp
      | cons a l => simp
    · simp only [get_player_stats_multi, assemblePlayerStats]
      cases hL : tasks.filterMap
          (fun p => fetch_player_stats_async p.1 p.2.1 p.2.2) with
      | nil => intro t ht; simp at ht
      | cons a l =>
          intro t ht
          simp only [List.isEmpty_cons, Bool.false_eq_true, if_false,
            Option.some.injEq] at ht
          rw [← ht]
          exact List.perm_insertionSort playerLE _

/-- Witness for C4: a fan-out whose only season task raises yields "no data",
and a one-task player fan-out produces exactly its processed row. -/
theorem fanout_resilience_witness :
    get_team_games_all [(Except.error "boom", "2023-24")] = none ∧
    List.Perm
      [[("PLAYER_NAME", Cell.cstr "Barnes"), ("GAME_DATE", Cell.cdate 20241101),
        ("SEASON", Cell.cstr "2024-25"), ("PTS", Cell.cint 25),
        ("REB", Cell.cnull), ("AST", Cell.cnull), ("FG_PCT", Cell.cnull),
        ("STL", Cell.cnull), ("BLK", Cell.cnull), ("TOV", Cell.cnull)]]
      ((([(((Except.ok [[("GAME_DATE", Cell.cstr "Nov 01, 2024"),
              ("PTS", Cell.cint 25)]]) : Except String Table), "Barnes",
          "2024-25")].filterMap fun p =>
            fetch_player_stats_async p.1 p.2.1 p.2.2).flatten).map
        processPlayerRow) :=
  ⟨(fanout_resilience.1 [(Except.error "boom", "2023-24")]).2.mpr (by decide),
   (fanout_resilience.2
      [(Except.ok [[("GAME_DATE", Cell.cstr "Nov 01, 2024"),
         ("PTS", Cell.cint 25)]], "Barnes", "2024-25")]).2
      [[("PLAYER_NAME", Cell.cstr "Barnes"), ("GAME_DATE", Cell.cdate 20241101),
        ("SEASON", Cell.cstr "2024-25"), ("PTS", Cell.cint 25),
        ("REB", Cell.cnull), ("AST", Cell.cnull), ("FG_PCT", Cell.cnull),
        ("STL", Cell.cnull), ("BLK", Cell.cnull), ("TOV", Cell.cnull)]]
      (by rfl)⟩

/-! ### C7 -/

/-- C7 counterexample: the all-seasons team-games fetch concatenates the
per-season frames in completion order and applies no re-sort afterwards, so
the two completion orders of the same two succeeding season tasks assemble
different tables. -/
theorem team_games_completion_order_counterexample :
    ([((Except.ok [[("GAME_DATE", Cell.cstr "Nov 01, 2024"), ("PTS", Cell.cint 110)]] :
          Except String Table), "2024-25"),
      (Except.ok [[("GAME_DATE", Cell.cstr "Nov 01, 2023"), ("PTS", Cell.cint 100)]],
        "2023-24")] :
      List (Except String Table × String)) =
      ([((Except.ok [[("GAME_DATE", Cell.cstr "Nov 01, 2023"), ("PTS", Cell.cint 100)]] :
            Except String Table), "2023-24"),
        (Except.ok [[("GAME_DATE", Cell.cstr "Nov 01, 2024"), ("PTS", Cell.cint 110)]],
          "2024-25")]).reverse ∧
    decide (get_team_games_all
      [(Except.ok [[("GAME_DATE", Cell.cstr "Nov 01, 2023"), ("PTS", Cell.cint 100)]],
        "2023-24"),
       (Except.ok [[("GAME_DATE", Cell.cstr "Nov 01, 2024"), ("PTS", Cell.cint 110)]],
        "2024-25")] =
    get_team_games_all
      [(Except.ok [[("GAME_DATE", Cell.cstr "Nov 01, 2024"), ("PTS", Cell.cint 110)]],
        "2024-25"),
       (Except.ok [[("GAME_DATE", Cell.cstr "Nov 01, 2023"), ("PTS", Cell.cint 100)]],
        "2023-24")]) = false := by
  constructor
  · rfl
  · rfl

/-- C7 amended: the player-stats pipeline does re-sort after collection, so
its output is independent of the completion order of the parallel tasks
whenever no two processed rows share the full (SEASON, PLAYER_NAME,
GAME_DATE) sort key — which the fan-out guarantees across tasks, since every
task stamps its own player and season on its rows; the all-seasons team-games
fetch, by contrast, concatenates in completion order without a re-sort (see
the counterexample). -/
theorem player_stats_completion_order_independent
    (tasks₁ tasks₂ : List (Except String Table × String × String))
    (hperm : tasks₁.Perm tasks₂)
    (hkeys : ((((tasks₁.filterMap fun p =>
        fetch_player_stats_async p.1 p.2.1 p.2.2).flatten).map processPlayerRow).map
        playerKey).Nodup) :
    get_player_stats_multi tasks₁ = get_player_stats_multi tasks₂ := by
  have hfm : (tasks₁.filterMap fun p => fetch_player_stats_async p.1 p.2.1 p.2.2).Perm
      (tasks₂.filterMap fun p => fetch_player_stats_async p.1 p.2.1 p.2.2) :=
    hperm.filterMap _
  have hrows : (((tasks₁.filterMap fun p =>
      fetch_player_stats_async p.1 p.2.1 p.2.2).flatten).map processPlayerRow).Perm
      (((tasks₂.filterMap fun p =>
        fetch_player_stats_async p.1 p.2.1 p.2.2).flatten).map processPlayerRow) :=
    (hfm.flatten).map _
  simp only [get_player_stats_multi, assemblePlayerStats]
  cases hL1 : tasks₁.filterMap (fun p => fetch_player_stats_async p.1 p.2.1 p.2.2) with
  | nil =>
      rw [hL1] at hfm
      have hL2 : tasks₂.filterMap (fun p => fetch_player_stats_async p.1 p.2.1 p.2.2) =
          [] := hfm.nil_eq.symm
      rw [hL2]
  | cons a l =>
      rw [hL1] at hfm hrows
      rw [hL1] at hkeys
      cases hL2 : tasks₂.filterMap (fun p => fetch_player_stats_async p.1 p.2.1 p.2.2) with
      | nil =>
          rw [hL2] at hfm
          exact absurd hfm.symm.nil_eq (by simp)
      | cons b m =>
          rw [hL2] at hrows
          simp only [List.isEmpty_cons, Bool.false_eq_true, if_false, Option.some.injEq]
          refine sorted_perm_eq_of_nodup_keys playerKey ?_ ?_ ?_ ?_
          · exact (List.perm_insertionSort playerLE _).trans
              (hrows.trans (List.perm_insertionSort playerLE _).symm)
          · exact List.sorted_insertionSort playerLE _
          · exact List.sorted_insertionSort playerLE _
          · exact ((List.perm_insertionSort playerLE _).map playerKey).symm.nodup hkeys

/-- Witness for C7's amended theorem: two one-row player tasks in the two
possible completion orders assemble the same sorted table. -/
theorem player_stats_completion_order_independent_witness :
    get_player_stats_multi
      [(Except.ok [[("GAME_DATE", Cell.cstr "Nov 01, 2024"), ("PTS", Cell.cint 20)]],
        "Amen", "2024-25"),
       (Except.ok [[("GAME_DATE", Cell.cstr "Nov 02, 2024"), ("PTS", Cell.cint 30)]],
        "Bar", "2024-25")] =
    get_player_stats_multi
      [(Except.ok [[("GAME_DATE", Cell.cstr "Nov 02, 2024"), ("PTS", Cell.cint 30)]],
        "Bar", "2024-25"),
       (Except.ok [[("GAME_DATE", Cell.cstr "Nov 01, 2024"), ("PTS", Cell.cint 20)]],
        "Amen", "2024-25")] :=
  player_stats_completion_order_independent _ _
    (List.Perm.swap
      (Except.ok [[("GAME_DATE", Cell.cstr "Nov 02, 2024"), ("PTS", Cell.cint 30)]],
        "Bar", "2024-25")
      (Except.ok [[("GAME_DATE", Cell.cstr "Nov 01, 2024"), ("PTS", Cell.cint 20)]],
        "Amen", "2024-25")
      [])
    (by decide)
